import Mathlib

/-!
Shallow embedding of the authentication / authorization middleware in
`src/lib/restapi/auth.ts` of the taxinomitis repository.

Each Express middleware either writes a terminal error response
(`errors.notAuthorised`, `errors.forbidden`, `errors.supervisorOnly`,
`errors.notFound`, or a raw 403 body), calls `next()` to continue the
chain (possibly after mutating the request), or calls `next(err)` to
propagate a fault to the generic error handler.  We model this with the
`Outcome` type.  Requests are modelled explicitly, and the asynchronous
external collaborators (`jwt-decode`, `sessionusers.checkSessionToken`,
`store.getProject`, `store.getClassTenant`) are modelled as an `Env` of
oracles whose results are `Except` values (`.error` = thrown/rejected).
-/

/-- `Objects.TemporaryUser`, the decoded session-token payload.
Modelled from the spec: the type lives in `src/lib/db/db-types` which is
not under src/; spec §3 gives the decoded SessionToken shape
`\x7bid: string, token: string\x7d`. -/
structure TemporaryUser where
  id : String
  token : String
  deriving DecidableEq, Repr

/-- The structured `app_metadata` claims object on `req.user`.
Fields may be `undefined` in the source (e.g. when the vendor-namespaced
custom claims are absent), hence `Option`. -/
structure AppMetadata where
  role : Option String
  tenant : Option String
  deriving DecidableEq, Repr

/-- The `req.user` object attached by an authentication middleware.
`apiRole` / `apiTenant` model the vendor-namespaced raw claim keys
`https://machinelearningforkids.co.uk/api/role` and `.../api/tenant`. -/
structure User where
  sub : String
  app_metadata : Option AppMetadata
  apiRole : Option String
  apiTenant : Option String
  session : Option TemporaryUser
  deriving DecidableEq, Repr

/-- `Objects.Project`, restricted to the fields read by `auth.ts`.
Modelled from the spec for the field set (the type lives in
`src/lib/db/db-types`, not under src/): spec §3 gives
`\x7bid, tenant, ownerId, isCrowdSourced\x7d`; the source reads them as
`project.classid`, `project.userid`, `project.isCrowdSourced`. -/
structure Project where
  id : String
  classid : String
  userid : String
  isCrowdSourced : Bool
  deriving DecidableEq, Repr

/-- `Objects.ClassTenant` as read by `ensureUnmanaged`.
Modelled from the spec: TenantPolicy is `\x7btenant, isManaged: boolean\x7d`;
only `isManaged` is read by the source. -/
structure TenantPolicy where
  isManaged : Bool
  deriving DecidableEq, Repr

/-- A Node HTTP header value: `string | string[]`.  The source defends
against the non-string case with a `typeof` check. -/
inductive HeaderValue where
  | str (s : String)
  | arr (l : List String)
  deriving DecidableEq, Repr

/-- The parts of an Express request read or written by `auth.ts`:
the `classid` / `studentid` / `projectid` path parameters, the
`authorization` header, the `user` principal, and the `project`
attached by `verifyProjectAuth` (`RequestWithProject`). -/
structure Req where
  classid : String
  studentid : String
  projectid : String
  authorization : Option HeaderValue
  user : Option User
  project : Option Project
  deriving DecidableEq, Repr

/-- What a middleware in `auth.ts` does with the request:
continue the chain (`next`, with the possibly-updated request),
propagate a fault (`next(err)`), write one of the terminal error
responses, or hand the request to the Auth0 middleware. -/
inductive Outcome where
  | next (req : Req)
  | fault (err : String)
  | auth0Delegate
  | notAuthorised
  | forbidden
  | supervisorOnly
  | forbiddenManagedTenant
  | siteAdminForbidden
  | notFound
  deriving DecidableEq, Repr

/-- The external collaborators called by `auth.ts`, as oracles.
`.error` models a thrown error / rejected promise. -/
structure Env where
  jwtDecode : String → Except Unit TemporaryUser
  checkSessionToken : String → String → Except String Bool
  getProject : String → Except String (Option Project)
  getClassTenant : String → Except String TenantPolicy

/-- Modelled from the spec: `sessionusers.CLASS_NAME`, the reserved
session-tenant identifier, is exported by the `sessionusers`
collaborator module which is not under src/ (spec glossary: "Reserved
session tenant: a special tenant identifier whose members authenticate
via locally-verified session tokens"). -/
def CLASS_NAME : String := "session-users"

/-- `sessionusersAuthenticate`: decode the session token, check the
`(studentid, token)` pair against the session store, and on success
attach the student principal.  A `none` token string models
`split(' ')[1]` being `undefined`, on which `jwtDecode` throws, landing
in the same catch block as any other decode failure. -/
def sessionusersAuthenticate (env : Env) (jwtTokenString : Option String)
    (req : Req) : Outcome :=
  match jwtTokenString with
  | none => .notAuthorised
  | some tok =>
    match env.jwtDecode tok with
    | .error _ => .notAuthorised
    | .ok decoded =>
      match env.checkSessionToken req.studentid decoded.token with
      | .error e => .fault e
      | .ok true =>
          .next { req with user := some {
            sub := decoded.id
            app_metadata := some { role := some "student", tenant := some CLASS_NAME }
            apiRole := none
            apiTenant := none
            session := some decoded } }
      | .ok false => .notAuthorised

/-- JavaScript `String.prototype.split(' ')` on a character list:
cut at every single space character, keeping empty pieces, so the
result is always non-empty. -/
def splitOnSpace : List Char → List (List Char)
  | [] => [[]]
  | c :: rest =>
    let r := splitOnSpace rest
    if c = ' ' then [] :: r
    else
      match r with
      | [] => [[c]]
      | w :: ws => (c :: w) :: ws

/-- JavaScript `s.split(' ')` as a list of strings. -/
def splitSpaces (s : String) : List String :=
  (splitOnSpace s.data).map List.asString

/-- `s.split(' ')[0]` — always defined, the scheme word of the header. -/
def firstWord (s : String) : String :=
  (splitSpaces s).headD ""

/-- The guard of the `if` in `authenticate`: the request targets the
session-users class, carries an authorization header that is a truthy
string, and the header's first space-separated word is `Bearer`. -/
def bearerRequest (req : Req) : Bool :=
  req.classid == CLASS_NAME &&
    (match req.authorization with
     | some (.str s) => !(s == "") && (firstWord s == "Bearer")
     | _ => false)

/-- `req.headers.authorization.split(' ')[1]` — the bearer token,
`undefined` when the header has no second word. -/
def bearerToken (req : Req) : Option String :=
  match req.authorization with
  | some (.str s) => (splitSpaces s)[1]?
  | _ => none

/-- `authenticate`: route the request either to the local session-user
verification or to the Auth0 middleware. -/
def authenticate (env : Env) (req : Req) : Outcome :=
  if bearerRequest req then
    sessionusersAuthenticate env (bearerToken req) req
  else
    .auth0Delegate

/-- `getValuesFromToken`: if a user is present whose `app_metadata` is
absent, populate it from the vendor-namespaced custom claim keys. -/
def getValuesFromToken (req : Req) : Req :=
  match req.user with
  | some u =>
    if u.app_metadata.isNone then
      let u1 : User :=
        { u with app_metadata := some { role := u.apiRole, tenant := u.apiTenant } }
      { req with user := some u1 }
    else req
  | none => req

/-- `checkValidUser`: run claims normalization, reject with
`notAuthorised` when no user / no `app_metadata`, reject with
`forbidden` on a tenant mismatch, otherwise continue. -/
def checkValidUser (req : Req) : Outcome :=
  let req1 := getValuesFromToken req
  match req1.user with
  | none => .notAuthorised
  | some u =>
    match u.app_metadata with
    | none => .notAuthorised
    | some md =>
      if md.tenant = some req1.classid then .next req1 else .forbidden

/-- `requireSupervisor`: reads `req.user.app_metadata.role` with no
guard, so a missing user or missing `app_metadata` is a thrown
`TypeError`, modelled as `none`. -/
def requireSupervisor (req : Req) : Option Outcome :=
  match req.user with
  | none => none
  | some u =>
    match u.app_metadata with
    | none => none
    | some md =>
      if md.role = some "supervisor" then some (.next req) else some .supervisorOnly

/-- `requireSiteAdmin`: normalizes claims itself, then requires the
`siteadmin` role, answering a raw 403 body otherwise. -/
def requireSiteAdmin (req : Req) : Option Outcome :=
  let req1 := getValuesFromToken req
  match req1.user with
  | none => none
  | some u =>
    match u.app_metadata with
    | none => none
    | some md =>
      if md.role = some "siteadmin" then some (.next req1) else some .siteAdminForbidden

/-- `ensureUnmanaged`: fetch the tenant policy for the `classid` path
parameter; managed tenants are forbidden, fetch errors are passed to
`next(err)`. -/
def ensureUnmanaged (env : Env) (req : Req) : Outcome :=
  match env.getClassTenant req.classid with
  | .error e => .fault e
  | .ok policy =>
    if policy.isManaged then .forbiddenManagedTenant else .next req

/-- `verifyProjectAuth`: resolve the project, enforce existence and
tenant match, then the ownership / crowd-sourcing rule.  `isOwner`
is `req.user && (project.userid === req.user.sub) && (project.userid
=== userid)`: `undefined` (here `none`) when there is no user, a
boolean otherwise; the guard tests `isOwner === false` specifically. -/
def verifyProjectAuth (env : Env) (req : Req)
    (isCrowdSourcedAllowed : Bool) : Outcome :=
  match env.getProject req.projectid with
  | .error e => .fault e
  | .ok none => .notFound
  | .ok (some project) =>
    if project.classid = req.classid then
      let isOwner : Option Bool :=
        req.user.map (fun u => project.userid == u.sub && project.userid == req.studentid)
      if isOwner = some false then
        if !isCrowdSourcedAllowed || !project.isCrowdSourced then
          .forbidden
        else
          .next { req with project := some project }
      else
        .next { req with project := some project }
    else
      .forbidden

/-- `verifyProjectOwner`: exclusive-rights access. -/
def verifyProjectOwner (env : Env) (req : Req) : Outcome :=
  verifyProjectAuth env req false

/-- `verifyProjectAccess`: at-least-read access (crowd-sourced allowed). -/
def verifyProjectAccess (env : Env) (req : Req) : Outcome :=
  verifyProjectAuth env req true

/-- The principal attached by `sessionusersAuthenticate` on success:
`sub` from the decoded payload's id, structured student/session-tenant
claims, and the decoded payload as the session info. -/
def sessionPrincipal (d : TemporaryUser) : User :=
  { sub := d.id
    app_metadata := some { role := some "student", tenant := some CLASS_NAME }
    apiRole := none
    apiTenant := none
    session := some d }

/-- A sample environment in which every store is empty / benign. -/
def baseEnv : Env :=
  { jwtDecode := fun _ => .error ()
    checkSessionToken := fun _ _ => .ok false
    getProject := fun _ => .ok none
    getClassTenant := fun _ => .ok { isManaged := false } }

/-- A sample project owned by `owner1` in tenant `t1`. -/
def sampleProject : Project :=
  { id := "p1", classid := "t1", userid := "owner1", isCrowdSourced := false }

/-- A sample request addressing tenant `t1`, member `owner1`,
project `p1`, with no credential and no principal. -/
def sampleReq : Req :=
  { classid := "t1", studentid := "owner1", projectid := "p1"
    authorization := none, user := none, project := none }

/-- A sample supervisor principal in tenant `t1`. -/
def supUser : User :=
  { sub := "u1"
    app_metadata := some { role := some "supervisor", tenant := some "t1" }
    apiRole := none, apiTenant := none, session := none }

/-- A sample student principal whose subject is the owner of
`sampleProject`. -/
def ownerUser : User :=
  { sub := "owner1"
    app_metadata := some { role := some "student", tenant := some "t1" }
    apiRole := none, apiTenant := none, session := none }

/-! ## Properties of the claims -/

/-- C8: claims normalization (`getValuesFromToken`) is idempotent: for
every request/principal, applying it twice yields the same request as
applying it once, because a principal that already carries structured
claim fields is left unchanged by a subsequent application. -/
theorem C8_getValuesFromToken_idempotent (req : Req) :
    getValuesFromToken (getValuesFromToken req) = getValuesFromToken req := by
  cases hu : req.user with
  | none => simp [getValuesFromToken, hu]
  | some u =>
    cases hmd : u.app_metadata with
    | none => simp [getValuesFromToken, hu, hmd]
    | some md => simp [getValuesFromToken, hu, hmd]

/-- C9: `ensureUnmanaged` fetches the tenant policy for the requested
tenant path segment; `isManaged = true` yields the managed-tenant
forbidden response, `isManaged = false` passes through, and a fetch
error propagates as a fault to the chain's error handler, never as a
forbidden rejection. -/
theorem C9_ensureUnmanaged_spec (env : Env) (req : Req) :
    (∀ p, env.getClassTenant req.classid = .ok p →
      ensureUnmanaged env req =
        (if p.isManaged then .forbiddenManagedTenant else .next req))
    ∧ (∀ e, env.getClassTenant req.classid = .error e →
        ensureUnmanaged env req = .fault e) := by
  constructor
  · intro p hp
    simp [ensureUnmanaged, hp]
  · intro e he
    simp [ensureUnmanaged, he]

theorem C9_witness :
    ensureUnmanaged
      { baseEnv with getClassTenant := fun _ => .ok { isManaged := true } }
      sampleReq = .forbiddenManagedTenant := by
  exact (C9_ensureUnmanaged_spec
    { baseEnv with getClassTenant := fun _ => .ok { isManaged := true } }
    sampleReq).1 { isManaged := true } rfl

/-- `getValuesFromToken` only rewrites the `user` field: the `classid`
path parameter is untouched. -/
theorem getValuesFromToken_classid (req : Req) :
    (getValuesFromToken req).classid = req.classid := by
  cases hu : req.user with
  | none => simp [getValuesFromToken, hu]
  | some u =>
    cases hmd : u.app_metadata with
    | none => simp [getValuesFromToken, hu, hmd]
    | some md => simp [getValuesFromToken, hu, hmd]

/-- C3: for both project operations, a non-existent project id yields
`notFound` independent of tenant, principal or ownership values, and an
existing project whose tenant differs from the path tenant segment
yields `forbidden`, even for the true owner. -/
theorem C3_notfound_and_tenant_isolation (env : Env) (req : Req) :
    (env.getProject req.projectid = .ok none →
      verifyProjectOwner env req = .notFound
      ∧ verifyProjectAccess env req = .notFound)
    ∧ (∀ p, env.getProject req.projectid = .ok (some p) →
        p.classid ≠ req.classid →
        verifyProjectOwner env req = .forbidden
        ∧ verifyProjectAccess env req = .forbidden) := by
  constructor
  · intro h
    constructor <;>
      simp [verifyProjectOwner, verifyProjectAccess, verifyProjectAuth, h]
  · intro p hp hne
    constructor <;>
      simp [verifyProjectOwner, verifyProjectAccess, verifyProjectAuth, hp, hne]

theorem C3_witness :
    verifyProjectOwner baseEnv sampleReq = .notFound
    ∧ verifyProjectAccess
        { baseEnv with getProject := fun _ => .ok (some { sampleProject with classid := "t2" }) }
        sampleReq = .forbidden := by
  constructor
  · exact ((C3_notfound_and_tenant_isolation baseEnv sampleReq).1 rfl).1
  · exact ((C3_notfound_and_tenant_isolation
      { baseEnv with getProject := fun _ => .ok (some { sampleProject with classid := "t2" }) }
      sampleReq).2 { sampleProject with classid := "t2" } rfl (by decide)).2

/-- C6: `checkValidUser`, after claims normalization, answers
`notAuthorised` when no principal is present, `forbidden` when the
normalized principal's tenant differs from the requested tenant path
segment, and continues the chain exactly when the tenant matches. -/
theorem C6_checkValidUser_spec (req : Req) :
    (req.user = none → checkValidUser req = .notAuthorised)
    ∧ (∀ u md, (getValuesFromToken req).user = some u →
        u.app_metadata = some md →
        (md.tenant = some req.classid →
          checkValidUser req = .next (getValuesFromToken req))
        ∧ (md.tenant ≠ some req.classid → checkValidUser req = .forbidden)) := by
  constructor
  · intro h
    simp [checkValidUser, getValuesFromToken, h]
  · intro u md hu hmd
    have hc := getValuesFromToken_classid req
    constructor
    · intro ht
      simp [checkValidUser, hu, hmd, hc, ht]
    · intro ht
      simp [checkValidUser, hu, hmd, hc, ht]

theorem C6_witness :
    checkValidUser { sampleReq with user := some supUser }
      = .next (getValuesFromToken { sampleReq with user := some supUser }) := by
  exact ((C6_checkValidUser_spec { sampleReq with user := some supUser }).2
    supUser { role := some "supervisor", tenant := some "t1" } rfl rfl).1 rfl

/-- C7: under the precondition that the principal and its structured
`app_metadata` are present (normalization and tenant-match already
ran), `requireSupervisor` rejects every role other than `supervisor`
with the supervisor-required forbidden response, and passes exactly
when the role is `supervisor`. -/
theorem C7_requireSupervisor_spec (req : Req) (u : User) (md : AppMetadata)
    (hu : req.user = some u) (hmd : u.app_metadata = some md) :
    (md.role ≠ some "supervisor" → requireSupervisor req = some .supervisorOnly)
    ∧ (requireSupervisor req = some (.next req) ↔ md.role = some "supervisor") := by
  constructor
  · intro h
    simp [requireSupervisor, hu, hmd, h]
  · constructor
    · intro h
      by_contra hne
      simp [requireSupervisor, hu, hmd, hne] at h
    · intro h
      simp [requireSupervisor, hu, hmd, h]

theorem C7_witness :
    requireSupervisor { sampleReq with user := some supUser }
      = some (.next { sampleReq with user := some supUser }) := by
  exact (C7_requireSupervisor_spec { sampleReq with user := some supUser }
    supUser { role := some "supervisor", tenant := some "t1" } rfl rfl).2.mpr rfl

/-- C10: when no principal is attached to the request, an existing
project in the requested tenant is granted to both `verifyProjectOwner`
and `verifyProjectAccess` — the project is attached and the chain
continues — regardless of the owner id or the `isCrowdSourced` flag,
because `isOwner` is then `undefined` rather than the literal `false`
tested by the strict-equality guard. -/
theorem C10_no_principal_passes (env : Env) (req : Req) (p : Project)
    (hu : req.user = none)
    (hp : env.getProject req.projectid = .ok (some p))
    (ht : p.classid = req.classid) :
    verifyProjectOwner env req = .next { req with project := some p }
    ∧ verifyProjectAccess env req = .next { req with project := some p } := by
  constructor <;>
    simp [verifyProjectOwner, verifyProjectAccess, verifyProjectAuth, hp, ht, hu]

theorem C10_witness :
    verifyProjectOwner
      { baseEnv with getProject := fun _ => .ok (some sampleProject) }
      sampleReq = .next { sampleReq with project := some sampleProject } := by
  exact (C10_no_principal_passes
    { baseEnv with getProject := fun _ => .ok (some sampleProject) }
    sampleReq sampleProject rfl rfl rfl).1

/-- C4: a request targeting the reserved session tenant with a
well-formed bearer header whose token decodes successfully and whose
`(studentid, token)` pair verifies true against the session store
authenticates successfully, and the attached principal has
role `student`, tenant `CLASS_NAME`, subject the decoded payload's id,
and the decoded payload as session info. -/
theorem C4_session_auth_success (env : Env) (req : Req)
    (s tok : String) (d : TemporaryUser)
    (hc : req.classid = CLASS_NAME)
    (ha : req.authorization = some (.str s))
    (hs : s ≠ "")
    (hb : firstWord s = "Bearer")
    (htok : (splitSpaces s)[1]? = some tok)
    (hd : env.jwtDecode tok = .ok d)
    (hv : env.checkSessionToken req.studentid d.token = .ok true) :
    authenticate env req = .next { req with user := some (sessionPrincipal d) } := by
  have hbr : bearerRequest req = true := by
    simp [bearerRequest, hc, ha, hs, hb]
  have htk : bearerToken req = some tok := by
    simp [bearerToken, ha, htok]
  simp [authenticate, hbr, htk, sessionusersAuthenticate, hd, hv, sessionPrincipal]

theorem C4_witness :
    authenticate
      { baseEnv with
          jwtDecode := fun _ => .ok { id := "student9", token := "sess1" }
          checkSessionToken := fun _ _ => .ok true }
      { sampleReq with classid := CLASS_NAME
                       authorization := some (.str "Bearer abc") }
      = .next { sampleReq with
          classid := CLASS_NAME
          authorization := some (.str "Bearer abc")
          user := some (sessionPrincipal { id := "student9", token := "sess1" }) } := by
  exact C4_session_auth_success
    { baseEnv with
        jwtDecode := fun _ => .ok { id := "student9", token := "sess1" }
        checkSessionToken := fun _ _ => .ok true }
    { sampleReq with classid := CLASS_NAME
                     authorization := some (.str "Bearer abc") }
    "Bearer abc" "abc" { id := "student9", token := "sess1" }
    rfl rfl (by decide) (by decide) (by decide) rfl rfl

/-- C5: in the session-token verification path, a decode failure yields
`notAuthorised` (never a fault), a session lookup answering `false`
yields `notAuthorised`, and an error thrown by the session lookup is
propagated as a fault to the chain's error handler, never swallowed or
converted into a rejection. -/
theorem C5_session_failure_handling (env : Env) (tok : String) (req : Req) :
    (∀ e : Unit, env.jwtDecode tok = .error e →
      sessionusersAuthenticate env (some tok) req = .notAuthorised)
    ∧ (∀ d, env.jwtDecode tok = .ok d →
        env.checkSessionToken req.studentid d.token = .ok false →
        sessionusersAuthenticate env (some tok) req = .notAuthorised)
    ∧ (∀ d e, env.jwtDecode tok = .ok d →
        env.checkSessionToken req.studentid d.token = .error e →
        sessionusersAuthenticate env (some tok) req = .fault e) := by
  refine ⟨?_, ?_, ?_⟩
  · intro e he
    simp [sessionusersAuthenticate, he]
  · intro d hd hf
    simp [sessionusersAuthenticate, hd, hf]
  · intro d e hd he
    simp [sessionusersAuthenticate, hd, he]

theorem C5_witness :
    sessionusersAuthenticate baseEnv (some "garbage") sampleReq = .notAuthorised
    ∧ sessionusersAuthenticate
        { baseEnv with
            jwtDecode := fun _ => .ok { id := "student9", token := "sess1" }
            checkSessionToken := fun _ _ => .error "db outage" }
        (some "tok") sampleReq = .fault "db outage" := by
  constructor
  · exact (C5_session_failure_handling baseEnv "garbage" sampleReq).1 () rfl
  · exact (C5_session_failure_handling
      { baseEnv with
          jwtDecode := fun _ => .ok { id := "student9", token := "sess1" }
          checkSessionToken := fun _ _ => .error "db outage" }
      "tok" sampleReq).2.2 { id := "student9", token := "sess1" } "db outage" rfl rfl

/-- C1 counterexample: a request targeting the reserved session tenant
with a missing credential header is handed to the Auth0 middleware —
the `authenticate` routing condition fails and the request is not
answered by a session-path `notAuthorised` response. -/
theorem C1_counterexample :
    authenticate baseEnv { sampleReq with classid := CLASS_NAME } = .auth0Delegate
    ∧ authenticate baseEnv { sampleReq with classid := CLASS_NAME }
        ≠ .notAuthorised := by
  constructor
  · rfl
  · decide

/-- C1 (amended): a request whose tenant path segment equals the
reserved session-tenant identifier but whose credential header is
missing, not a string, empty, or not a bearer-scheme header, is
delegated by `authenticate` to the external (Auth0) verification path;
it is not handled by the session path. -/
theorem C1_amended_malformed_header_goes_to_auth0 (env : Env) (req : Req)
    (_hc : req.classid = CLASS_NAME)
    (hm : ∀ s, req.authorization = some (.str s) →
      s = "" ∨ firstWord s ≠ "Bearer") :
    authenticate env req = .auth0Delegate := by
  have hbr : bearerRequest req = false := by
    unfold bearerRequest
    cases hA : req.authorization with
    | none => simp
    | some hv =>
      cases hv with
      | str s =>
        rcases hm s hA with h | h
        · simp [h]
        · simp [h]
      | arr l => simp
  simp [authenticate, hbr]

theorem C1_witness :
    authenticate baseEnv
      { sampleReq with classid := CLASS_NAME
                       authorization := some (.str "Basic dXNlcg==") }
      = .auth0Delegate := by
  exact C1_amended_malformed_header_goes_to_auth0 baseEnv
    { sampleReq with classid := CLASS_NAME
                     authorization := some (.str "Basic dXNlcg==") }
    rfl
    (fun s h => by
      cases h
      exact Or.inr (by decide))

/-- C2 counterexample: a project-access request with no principal, for
an existing project in the requested tenant with `isCrowdSourced =
false`, is not rejected by the owner-only operation: `isOwner` is
`undefined` rather than the literal `false`, so the request passes. -/
theorem C2_counterexample :
    verifyProjectOwner
      { baseEnv with getProject := fun _ => .ok (some sampleProject) }
      { sampleReq with studentid := "someoneElse" }
      = .next { sampleReq with studentid := "someoneElse"
                               project := some sampleProject }
    ∧ verifyProjectOwner
        { baseEnv with getProject := fun _ => .ok (some sampleProject) }
        { sampleReq with studentid := "someoneElse" }
        ≠ .forbidden := by
  constructor
  · rfl
  · decide

/-- C2 (amended): for every project-access request where the project
exists, its tenant equals the path tenant segment, and a principal is
present, the request passes exactly when the caller is the owner
(project owner id equals both the principal's subject and the
member-identifier path segment) or the operation allows shared access
and the project is crowd-sourced; otherwise it is rejected with
`forbidden`.  (A caller with no principal is not rejected: the
strict-equality guard only fires on the literal `false`.) -/
theorem C2_amended_ownership_rule (env : Env) (req : Req) (allowed : Bool)
    (u : User) (project : Project)
    (hp : env.getProject req.projectid = .ok (some project))
    (ht : project.classid = req.classid)
    (hu : req.user = some u) :
    verifyProjectAuth env req allowed =
      (if (project.userid = u.sub ∧ project.userid = req.studentid)
          ∨ (allowed = true ∧ project.isCrowdSourced = true)
       then .next { req with project := some project }
       else .forbidden) := by
  by_cases hcond : (project.userid = u.sub ∧ project.userid = req.studentid)
      ∨ (allowed = true ∧ project.isCrowdSourced = true)
  · rw [if_pos hcond]
    rcases hcond with ⟨h1, h2⟩ | ⟨h1, h2⟩
    · simp [verifyProjectAuth, hp, ht, hu, ← h1, ← h2]
    · simp [verifyProjectAuth, hp, ht, hu, h1, h2]
  · rw [if_neg hcond]
    push_neg at hcond
    obtain ⟨hown, hshared⟩ := hcond
    have hb : (project.userid == u.sub && project.userid == req.studentid) = false := by
      by_cases h1 : project.userid = u.sub
      · have h2 := hown h1
        simp [h1]
        exact h1 ▸ h2
      · simp [h1]
    cases hA : allowed with
    | false => simp [verifyProjectAuth, hp, ht, hu, hb, hA]
    | true =>
      have hcr : project.isCrowdSourced = false := by
        cases hx : project.isCrowdSourced with
        | false => rfl
        | true => exact absurd hx (hshared hA)
      simp [verifyProjectAuth, hp, ht, hu, hb, hA, hcr]

theorem C2_witness :
    verifyProjectOwner
      { baseEnv with getProject := fun _ => .ok (some sampleProject) }
      { sampleReq with user := some ownerUser }
      = .next { sampleReq with user := some ownerUser
                               project := some sampleProject } := by
  have h := C2_amended_ownership_rule
    { baseEnv with getProject := fun _ => .ok (some sampleProject) }
    { sampleReq with user := some ownerUser }
    false ownerUser sampleProject rfl rfl rfl
  rw [verifyProjectOwner, h, if_pos (Or.inl ⟨rfl, rfl⟩)]
